import Mathlib

/-!
Verification of the `poem` server-side session middleware
(`src/poem/src/session/server_session.rs`), the OpenAPI `Uuid` JSON
codec (`src/poem-openapi/src/types/external/uuid.rs`) and the
Stoplight-Elements HTML templating (`src/poem-openapi/src/ui/stoplight_elements/mod.rs`).

The stateful middleware is embedded as a pure function that, besides the
request-level result, returns the ordered list of observable effects
(storage calls, cookie-jar writes, identifier generations) the request
performed.  Randomness is an explicit oracle argument.
-/

namespace Poem

/-- Session entry mapping: keys to (serialized) values.  In the source this
is the `BTreeMap<String, Value>` held by `Session`; the value payload is
opaque to the middleware, so it is modelled as a string. -/
abbrev Entries := List (String × String)

/-- Modelled from the spec: the four-state session status flag
(`SessionStatus` lives in `session/session.rs`, which is outside `src/`):
Unchanged (initial), Changed, Renewed, Purged. -/
inductive SessionStatus where
  | unchanged
  | changed
  | renewed
  | purged
deriving DecidableEq, Repr

/-- Modelled from the spec: the request-scoped `Session` object
(`session/session.rs`, outside `src/`): an entry mapping plus a status
flag read once by the middleware after the handler returns. -/
structure Session where
  entries : Entries
  status : SessionStatus
deriving DecidableEq, Repr

/-- Modelled from the spec: `Session::default()` constructs an empty
session with status Unchanged. -/
def Session.default : Session := ⟨[], .unchanged⟩

/-- Modelled from the spec: `Session::new(entries)` constructs a session
holding the deserialized stored entries, with initial status Unchanged. -/
def Session.new (entries : Entries) : Session := ⟨entries, .unchanged⟩

/-- The storage port (`SessionStorage` trait): three fallible operations.
Errors are opaque request-level failures, modelled as strings; the TTL
hint is an opaque value passed through, modelled as a `Nat`. -/
structure SessionStorage where
  load_session : String → Except String (Option Entries)
  update_session : String → Entries → Nat → Except String Unit
  remove_session : String → Except String Unit

/-- Modelled from the spec: the relevant part of `CookieConfig`
(`session/cookie_config.rs`, outside `src/`): the configured cookie name
and the TTL used both for the cookie and as the storage TTL hint. -/
structure CookieConfig where
  cookie_name : String
  ttl : Nat

/-- Modelled from the spec: `CookieConfig::get_cookie_value` reads the
configured cookie name from the inbound jar; absence yields `none`.  The
jar is modelled as the list of name/value pairs of the request cookies. -/
def CookieConfig.get_cookie_value (config : CookieConfig)
    (jar : List (String × String)) : Option String :=
  jar.lookup config.cookie_name

/-- An observable effect of one request passing through
`ServerSessionEndpoint::call`: a storage call, an outbound cookie-jar
write (`CookieConfig::set_cookie_value` / `remove_cookie`), or one
invocation of `generate_session_id`. -/
inductive Event where
  | load_session (id : String)
  | update_session (id : String) (entries : Entries) (ttl : Nat)
  | remove_session (id : String)
  | set_cookie (id : String)
  | remove_cookie
  | gen_id (id : String)
deriving DecidableEq, Repr

/-- Session resolution, the first `match` of `ServerSessionEndpoint::call`
(server_session.rs lines 63-74): a candidate identifier from the cookie is
looked up with `load_session`; a hit builds the session from the stored
entries, a miss discards the candidate identifier (`session_id = None`)
and builds an empty session; no candidate builds an empty session without
touching storage.  Returns the surviving identifier and the session, or
the storage error, together with the storage calls made. -/
def sessionResolve (storage : SessionStorage) (session_id : Option String) :
    Except String (Option String × Session) × List Event :=
  match session_id with
  | some id =>
    match storage.load_session id with
    | .error e => (.error e, [.load_session id])
    | .ok (some entries) => (.ok (some id, Session.new entries), [.load_session id])
    | .ok none => (.ok (none, Session.default), [.load_session id])
  | none => (.ok (none, Session.default), [])

/-- The post-handler persistence protocol, the `match session.status()` of
`ServerSessionEndpoint::call` (server_session.rs lines 79-113).  `new_id`
is the oracle for the single possible `generate_session_id()` draw; each
draw is recorded as a `gen_id` event.  The event list records the calls
actually performed, in order, also on the error path (an effect before a
failing storage call has still happened). -/
def sessionPersist (storage : SessionStorage) (ttl : Nat)
    (session_id : Option String) (session : Session) (new_id : String) :
    Except String Unit × List Event :=
  match session.status with
  | .changed =>
    match session_id with
    | some sid =>
      ((storage.update_session sid session.entries ttl).map (fun _ => ()),
        [.update_session sid session.entries ttl])
    | none =>
      ((storage.update_session new_id session.entries ttl).map (fun _ => ()),
        [.gen_id new_id, .set_cookie new_id,
          .update_session new_id session.entries ttl])
  | .renewed =>
    match session_id with
    | some sid =>
      match storage.remove_session sid with
      | .error e => (.error e, [.remove_session sid])
      | .ok _ =>
        ((storage.update_session new_id session.entries ttl).map (fun _ => ()),
          [.remove_session sid, .gen_id new_id, .set_cookie new_id,
            .update_session new_id session.entries ttl])
    | none =>
      ((storage.update_session new_id session.entries ttl).map (fun _ => ()),
        [.gen_id new_id, .set_cookie new_id,
          .update_session new_id session.entries ttl])
  | .purged =>
    match session_id with
    | some sid =>
      match storage.remove_session sid with
      | .error e => (.error e, [.remove_session sid])
      | .ok _ => (.ok (), [.remove_session sid, .remove_cookie])
    | none => (.ok (), [])
  | .unchanged => (.ok (), [])

/-- `ServerSessionEndpoint::call` (server_session.rs lines 62-116).  The
downstream handler is a function from the injected session to the final
state of the shared session object together with the handler's result (in
the source the handler mutates the shared `Session` in place; `?` then
short-circuits on its result).  Returns the request result and the
ordered effect list. -/
def ServerSessionEndpoint.call {R : Type} (config : CookieConfig)
    (storage : SessionStorage)
    (handler : Session → Session × Except String R)
    (jar : List (String × String)) (new_id : String) :
    Except String R × List Event :=
  let session_id := config.get_cookie_value jar
  match sessionResolve storage session_id with
  | (.error e, ev) => (.error e, ev)
  | (.ok (sid, session), ev) =>
    match handler session with
    | (session', hres) =>
      match hres with
      | .error e => (.error e, ev)
      | .ok resp =>
        match sessionPersist storage config.ttl sid session' new_id with
        | (.error e, pev) => (.error e, ev ++ pev)
        | (.ok _, pev) => (.ok resp, ev ++ pev)

/-- Demo storage used by the witnesses: one stored session under
`"sid-hit"`, all writes succeed. -/
def demoStorage : SessionStorage where
  load_session := fun id =>
    if id = "sid-hit" then .ok (some [("user", "42")]) else .ok none
  update_session := fun _ _ _ => .ok ()
  remove_session := fun _ => .ok ()

/-- Demo cookie configuration used by the witnesses. -/
def demoConfig : CookieConfig := ⟨"poem-session", 3600⟩

/-- The URL-safe base64 alphabet used by the `base64` crate's
`URL_SAFE_NO_PAD` engine: `A-Z`, `a-z`, `0-9`, `-`, `_`. -/
def url_safe_alphabet : List Char :=
  "ABCDEFGHIJKLMNOPQRSTUVWXYZabcdefghijklmnopqrstuvwxyz0123456789-_".toList

/-- One output symbol of the URL-safe base64 encoder: the 6-bit value's
entry of the alphabet. -/
def b64Char (n : Nat) : Char := url_safe_alphabet.getD (n % 64) 'A'

/-- Base64 encoding of a byte list: three input bytes yield four output
symbols; a final group of one or two bytes yields two or three symbols
and no padding is appended.  This models the `URL_SAFE_NO_PAD` engine's
`encode` of the external `base64` crate. -/
def encodeGroups : List Nat → List Char
  | [] => []
  | [b1] => [b64Char (b1 / 4), b64Char (b1 % 4 * 16)]
  | [b1, b2] =>
    [b64Char (b1 / 4), b64Char (b1 % 4 * 16 + b2 / 16), b64Char (b2 % 16 * 4)]
  | b1 :: b2 :: b3 :: rest =>
    b64Char (b1 / 4) :: b64Char (b1 % 4 * 16 + b2 / 16) ::
      b64Char (b2 % 16 * 4 + b3 / 64) :: b64Char (b3 % 64) :: encodeGroups rest

/-- `generate_session_id` (server_session.rs lines 43-46): the URL-safe
no-padding base64 encoding of 32 random bytes.  The random draw
`rng().random::<[u8; 32]>()` is the explicit `random_bytes` argument. -/
def generate_session_id (random_bytes : List Nat) : String :=
  ⟨encodeGroups random_bytes⟩

/-- A JSON value (`serde_json::Value`), with as much structure as the
`Uuid` codec distinguishes: strings are interpreted, every other shape is
only rejected. -/
inductive JValue where
  | null
  | bool (b : Bool)
  | num (n : Int)
  | str (s : String)
  | arr (l : List JValue)
  | obj (l : List (String × JValue))

/-- Parse failure of the OpenAPI type layer: the expected-type rejection
(`ParseError::expected_type`) or a propagated `uuid` parse error. -/
inductive ParseErr where
  | expected_type
  | parse_failed
deriving DecidableEq, Repr

/-- Lowercase hexadecimal digit of a 4-bit value, as produced by the
external `uuid` crate's `Display`. -/
def hexDigitChar (n : Nat) : Char := "0123456789abcdef".toList.getD (n % 16) '0'

/-- Big-endian fixed-width hexadecimal rendering: `natToHex k n` is the
low `k` hex digits of `n`, most significant first. -/
def natToHex : Nat → Nat → List Char
  | 0, _ => []
  | k + 1, n => natToHex k (n / 16) ++ [hexDigitChar (n % 16)]

/-- Value of one hexadecimal digit, either case (the `uuid` crate accepts
both when parsing). -/
def hexVal (c : Char) : Option Nat :=
  if '0' ≤ c ∧ c ≤ '9' then some (c.toNat - '0'.toNat)
  else if 'a' ≤ c ∧ c ≤ 'f' then some (c.toNat - 'a'.toNat + 10)
  else if 'A' ≤ c ∧ c ≤ 'F' then some (c.toNat - 'A'.toNat + 10)
  else none

/-- Accumulating hexadecimal reader, most significant digit first; fails
on the first non-hex character. -/
def parseHexAux (acc : Nat) : List Char → Option Nat
  | [] => some acc
  | c :: rest =>
    match hexVal c with
    | some v => parseHexAux (acc * 16 + v) rest
    | none => none

/-- `Uuid::to_string` (the external `uuid` crate's `Display`): the
lowercase hyphenated form `8-4-4-4-12` of the 128-bit value, modelled on
`Nat` values below `2 ^ 128`. -/
def uuidToString (u : Nat) : String :=
  let d := natToHex 32 u
  ⟨d.take 8 ++ '-' :: ((d.drop 8).take 4 ++ '-' :: ((d.drop 12).take 4 ++
    '-' :: ((d.drop 16).take 4 ++ '-' :: d.drop 20)))⟩

/-- `str::parse::<Uuid>` (the external `uuid` crate's `FromStr`),
restricted to the formats relevant here: the 32-digit simple form and the
hyphenated form with separators at offsets 8, 13, 18 and 23.  The crate
also accepts braced and URN forms, which `Display` never produces. -/
def uuidParse (s : String) : Option Nat :=
  let cs := s.toList
  if cs.length = 32 then
    parseHexAux 0 cs
  else if cs.length = 36 ∧ cs.getD 8 'x' = '-' ∧ cs.getD 13 'x' = '-' ∧
      cs.getD 18 'x' = '-' ∧ cs.getD 23 'x' = '-' then
    parseHexAux 0 (cs.take 8 ++ ((cs.drop 9).take 4) ++ ((cs.drop 14).take 4)
      ++ ((cs.drop 19).take 4) ++ cs.drop 24)
  else none

/-- `ToJSON for Uuid` (uuid.rs lines 67-71): serialize as a JSON string
holding the display form. -/
def Uuid.to_json (u : Nat) : Option JValue := some (.str (uuidToString u))

/-- `ParseFromJSON for Uuid` (uuid.rs lines 41-50): a missing value
defaults to `Value::Null` (`unwrap_or_default`); a JSON string is handed
to the `uuid` crate's parser, anything else is an expected-type error. -/
def Uuid.parse_from_json (value : Option JValue) : Except ParseErr Nat :=
  let value := value.getD .null
  match value with
  | .str s =>
    match uuidParse s with
    | some u => .ok u
    | none => .error .parse_failed
  | _ => .error .expected_type

/-- `leadsWith pat l` holds when `pat` is an initial segment of `l`. -/
def leadsWith : List Char → List Char → Bool
  | [], _ => true
  | _ :: _, [] => false
  | p :: ps, c :: cs => p == c && leadsWith ps cs

/-- Whether `pat` occurs as a contiguous segment of the list. -/
def containsSub : List Char → List Char → Bool
  | [], pat => pat.isEmpty
  | c :: rest, pat => leadsWith pat (c :: rest) || containsSub rest pat

/-- Leftmost non-overlapping replacement in a character list, as
performed by Rust's `str::replace` for a non-empty pattern: scan left to
right; where the pattern matches, emit the replacement and skip past the
match, otherwise keep the character. -/
def replaceAux (pat rep : List Char) : List Char → List Char
  | [] => []
  | c :: rest =>
    if h : pat ≠ [] ∧ leadsWith pat (c :: rest) = true then
      rep ++ replaceAux pat rep ((c :: rest).drop pat.length)
    else
      c :: replaceAux pat rep rest
termination_by l => l.length
decreasing_by
  · have hp : 1 ≤ pat.length := by
      cases pat with
      | nil => exact absurd rfl h.1
      | cons a t => simp
    simp only [List.length_drop, List.length_cons]
    omega
  · simp

/-- Rust's `str::replace` (external standard library), for a non-empty
pattern: every non-overlapping occurrence, scanning from the left, is
replaced by `rep`. -/
def rust_replace (s pat rep : String) : String :=
  ⟨replaceAux pat.toList rep.toList s.toList⟩

/-- The placeholder replaced by `create_html`: an apostrophe, an opening
brace, `:spec`, a closing brace and an apostrophe. -/
def specPlaceholder : String :=
  ⟨['\x27', '\x7b', ':', 's', 'p', 'e', 'c', '\x7d', '\x27']⟩

/-- `create_html` (stoplight_elements/mod.rs lines 5-7): replace the
placeholder in the template with the document.  The bundled template
`stoplight-elements.html` (pulled in by `include_str!`) is not among the
sources, so the template is an explicit argument here. -/
def create_html (template document : String) : String :=
  rust_replace template specPlaceholder document

/-- Claim C1: when the handler ends with status Changed and an identifier
was resolved (cookie present and found in the store), the request's
effects are exactly one `load_session` followed by exactly one
`update_session` with that same identifier, the session's final entries
and the configured TTL — no identifier generation and no cookie write;
when no identifier was resolved (no cookie, or cookie whose identifier
missed the store), exactly one fresh identifier is generated, written to
the outbound jar once, and passed to exactly one `update_session` with
the entries and the TTL. -/
theorem changed_status_persistence {R : Type} (config : CookieConfig)
    (storage : SessionStorage)
    (handler : Session → Session × Except String R)
    (jar : List (String × String)) (new_id : String) :
    (∀ id entries0 s' resp, s'.status = .changed →
      config.get_cookie_value jar = some id →
      storage.load_session id = Except.ok (some entries0) →
      handler (Session.new entries0) = (s', Except.ok resp) →
      (ServerSessionEndpoint.call config storage handler jar new_id).2 =
        [.load_session id, .update_session id s'.entries config.ttl])
    ∧
    (∀ s' resp, s'.status = .changed →
      config.get_cookie_value jar = none →
      handler Session.default = (s', Except.ok resp) →
      (ServerSessionEndpoint.call config storage handler jar new_id).2 =
        [.gen_id new_id, .set_cookie new_id,
          .update_session new_id s'.entries config.ttl])
    ∧
    (∀ id s' resp, s'.status = .changed →
      config.get_cookie_value jar = some id →
      storage.load_session id = Except.ok none →
      handler Session.default = (s', Except.ok resp) →
      (ServerSessionEndpoint.call config storage handler jar new_id).2 =
        [.load_session id, .gen_id new_id, .set_cookie new_id,
          .update_session new_id s'.entries config.ttl]) := by
  refine ⟨?_, ?_, ?_⟩
  · intro id entries0 s' resp hst hcv hload hh
    simp only [ServerSessionEndpoint.call, sessionResolve, sessionPersist,
      hcv, hload, hh, hst]
    cases storage.update_session id s'.entries config.ttl <;> rfl
  · intro s' resp hst hcv hh
    simp only [ServerSessionEndpoint.call, sessionResolve, sessionPersist,
      hcv, hh, hst]
    cases storage.update_session new_id s'.entries config.ttl <;> rfl
  · intro id s' resp hst hcv hload hh
    simp only [ServerSessionEndpoint.call, sessionResolve, sessionPersist,
      hcv, hload, hh, hst]
    cases storage.update_session new_id s'.entries config.ttl <;> rfl

/-- Witness for C1: both scenarios instantiated on the demo storage. -/
theorem changed_status_persistence_witness :
    (ServerSessionEndpoint.call demoConfig demoStorage
        (fun s => (⟨s.entries, .changed⟩, Except.ok (0 : Nat)))
        [("poem-session", "sid-hit")] "fresh").2 =
      [.load_session "sid-hit",
        .update_session "sid-hit" [("user", "42")] 3600]
    ∧
    (ServerSessionEndpoint.call demoConfig demoStorage
        (fun s => (⟨s.entries, .changed⟩, Except.ok (0 : Nat)))
        [] "fresh").2 =
      [.gen_id "fresh", .set_cookie "fresh", .update_session "fresh" [] 3600] :=
  ⟨(changed_status_persistence demoConfig demoStorage _ _ "fresh").1
      "sid-hit" [("user", "42")] ⟨[("user", "42")], .changed⟩ 0
      rfl rfl (by simp [demoStorage]) rfl,
    (changed_status_persistence demoConfig demoStorage _ _ "fresh").2.1
      ⟨[], .changed⟩ 0 rfl rfl rfl⟩

/-- Claim C2: when the handler ends with status Renewed and an old
identifier was resolved, the old record is removed (`remove_session`)
before the new record is written; in all cases exactly one fresh
identifier is generated, written to the outbound jar once, and passed to
exactly one `update_session` with the session's entries and the
configured TTL — Renewed always rotates to the freshly generated
identifier. -/
theorem renewed_status_rotation {R : Type} (config : CookieConfig)
    (storage : SessionStorage)
    (handler : Session → Session × Except String R)
    (jar : List (String × String)) (new_id : String) :
    (∀ id entries0 s' resp, s'.status = .renewed →
      config.get_cookie_value jar = some id →
      storage.load_session id = Except.ok (some entries0) →
      handler (Session.new entries0) = (s', Except.ok resp) →
      storage.remove_session id = Except.ok () →
      (ServerSessionEndpoint.call config storage handler jar new_id).2 =
        [.load_session id, .remove_session id, .gen_id new_id,
          .set_cookie new_id, .update_session new_id s'.entries config.ttl])
    ∧
    (∀ s' resp, s'.status = .renewed →
      config.get_cookie_value jar = none →
      handler Session.default = (s', Except.ok resp) →
      (ServerSessionEndpoint.call config storage handler jar new_id).2 =
        [.gen_id new_id, .set_cookie new_id,
          .update_session new_id s'.entries config.ttl])
    ∧
    (∀ id s' resp, s'.status = .renewed →
      config.get_cookie_value jar = some id →
      storage.load_session id = Except.ok none →
      handler Session.default = (s', Except.ok resp) →
      (ServerSessionEndpoint.call config storage handler jar new_id).2 =
        [.load_session id, .gen_id new_id, .set_cookie new_id,
          .update_session new_id s'.entries config.ttl]) := by
  refine ⟨?_, ?_, ?_⟩
  · intro id entries0 s' resp hst hcv hload hh hrm
    simp only [ServerSessionEndpoint.call, sessionResolve, sessionPersist,
      hcv, hload, hh, hst, hrm]
    cases storage.update_session new_id s'.entries config.ttl <;> rfl
  · intro s' resp hst hcv hh
    simp only [ServerSessionEndpoint.call, sessionResolve, sessionPersist,
      hcv, hh, hst]
    cases storage.update_session new_id s'.entries config.ttl <;> rfl
  · intro id s' resp hst hcv hload hh
    simp only [ServerSessionEndpoint.call, sessionResolve, sessionPersist,
      hcv, hload, hh, hst]
    cases storage.update_session new_id s'.entries config.ttl <;> rfl

/-- Witness for C2: identifier rotation on the demo storage, with and
without a resolved old identifier. -/
theorem renewed_status_rotation_witness :
    (ServerSessionEndpoint.call demoConfig demoStorage
        (fun s => (⟨s.entries, .renewed⟩, Except.ok (0 : Nat)))
        [("poem-session", "sid-hit")] "fresh").2 =
      [.load_session "sid-hit", .remove_session "sid-hit", .gen_id "fresh",
        .set_cookie "fresh", .update_session "fresh" [("user", "42")] 3600]
    ∧
    (ServerSessionEndpoint.call demoConfig demoStorage
        (fun s => (⟨s.entries, .renewed⟩, Except.ok (0 : Nat)))
        [] "fresh").2 =
      [.gen_id "fresh", .set_cookie "fresh", .update_session "fresh" [] 3600] :=
  ⟨(renewed_status_rotation demoConfig demoStorage _ _ "fresh").1
      "sid-hit" [("user", "42")] ⟨[("user", "42")], .renewed⟩ 0
      rfl rfl (by simp [demoStorage]) rfl rfl,
    (renewed_status_rotation demoConfig demoStorage _ _ "fresh").2.1
      ⟨[], .renewed⟩ 0 rfl rfl rfl⟩

/-- Claim C3: when the handler ends with status Purged and an identifier
was resolved, the request's effects after resolution are exactly one
`remove_session` with that identifier followed by the removal of the
session cookie from the outbound jar; when no identifier was resolved the
Purged branch performs no storage call and no cookie operation (with no
cookie the whole request performs no effect at all; with a stale cookie
the only effect is the resolution's `load_session`). -/
theorem purged_status_removal {R : Type} (config : CookieConfig)
    (storage : SessionStorage)
    (handler : Session → Session × Except String R)
    (jar : List (String × String)) (new_id : String) :
    (∀ id entries0 s' resp, s'.status = .purged →
      config.get_cookie_value jar = some id →
      storage.load_session id = Except.ok (some entries0) →
      handler (Session.new entries0) = (s', Except.ok resp) →
      storage.remove_session id = Except.ok () →
      ServerSessionEndpoint.call config storage handler jar new_id =
        (Except.ok resp, [.load_session id, .remove_session id, .remove_cookie]))
    ∧
    (∀ s' resp, s'.status = .purged →
      config.get_cookie_value jar = none →
      handler Session.default = (s', Except.ok resp) →
      ServerSessionEndpoint.call config storage handler jar new_id =
        (Except.ok resp, []))
    ∧
    (∀ id s' resp, s'.status = .purged →
      config.get_cookie_value jar = some id →
      storage.load_session id = Except.ok none →
      handler Session.default = (s', Except.ok resp) →
      ServerSessionEndpoint.call config storage handler jar new_id =
        (Except.ok resp, [.load_session id])) := by
  refine ⟨?_, ?_, ?_⟩
  · intro id entries0 s' resp hst hcv hload hh hrm
    simp only [ServerSessionEndpoint.call, sessionResolve, sessionPersist,
      hcv, hload, hh, hst, hrm]
    rfl
  · intro s' resp hst hcv hh
    simp only [ServerSessionEndpoint.call, sessionResolve, sessionPersist,
      hcv, hh, hst]
    rfl
  · intro id s' resp hst hcv hload hh
    simp only [ServerSessionEndpoint.call, sessionResolve, sessionPersist,
      hcv, hload, hh, hst]
    rfl

/-- Witness for C3: purge with a resolved identifier removes the record
and the cookie; purge with no cookie is a complete no-op. -/
theorem purged_status_removal_witness :
    ServerSessionEndpoint.call demoConfig demoStorage
        (fun s => (⟨s.entries, .purged⟩, Except.ok (0 : Nat)))
        [("poem-session", "sid-hit")] "fresh" =
      (Except.ok 0,
        [.load_session "sid-hit", .remove_session "sid-hit", .remove_cookie])
    ∧
    ServerSessionEndpoint.call demoConfig demoStorage
        (fun s => (⟨s.entries, .purged⟩, Except.ok (0 : Nat)))
        [] "fresh" =
      (Except.ok 0, []) :=
  ⟨(purged_status_removal demoConfig demoStorage _ _ "fresh").1
      "sid-hit" [("user", "42")] ⟨[("user", "42")], .purged⟩ 0
      rfl rfl (by simp [demoStorage]) rfl rfl,
    (purged_status_removal demoConfig demoStorage _ _ "fresh").2.1
      ⟨[], .purged⟩ 0 rfl rfl rfl⟩

/-- Claim C4: session resolution calls `load_session` exactly when a
candidate identifier was read from the cookie jar; a hit constructs the
session from the stored entries and keeps the identifier, a miss discards
the candidate identifier (so later persistence sees none) and constructs
an empty session, and with no candidate an empty session is constructed
with no storage call; moreover the downstream handler observes exactly the
session so constructed. -/
theorem session_resolution (storage : SessionStorage) :
    (∀ id entries, storage.load_session id = Except.ok (some entries) →
      sessionResolve storage (some id) =
        (Except.ok (some id, Session.new entries), [.load_session id]))
    ∧
    (∀ id, storage.load_session id = Except.ok none →
      sessionResolve storage (some id) =
        (Except.ok (none, Session.default), [.load_session id]))
    ∧
    sessionResolve storage none = (Except.ok (none, Session.default), [])
    ∧
    (∀ (config : CookieConfig) jar new_id id entries,
      config.get_cookie_value jar = some id →
      storage.load_session id = Except.ok (some entries) →
      (ServerSessionEndpoint.call config storage
          (fun s => (s, Except.ok s)) jar new_id).1 =
        Except.ok (Session.new entries))
    ∧
    (∀ (config : CookieConfig) jar new_id id,
      config.get_cookie_value jar = some id →
      storage.load_session id = Except.ok none →
      (ServerSessionEndpoint.call config storage
          (fun s => (s, Except.ok s)) jar new_id).1 =
        Except.ok Session.default)
    ∧
    (∀ (config : CookieConfig) jar new_id,
      config.get_cookie_value jar = none →
      ServerSessionEndpoint.call config storage
          (fun s => (s, Except.ok s)) jar new_id =
        (Except.ok Session.default, [])) := by
  refine ⟨?_, ?_, rfl, ?_, ?_, ?_⟩
  · intro id entries hload
    simp only [sessionResolve, hload]
  · intro id hload
    simp only [sessionResolve, hload]
  · intro config jar new_id id entries hcv hload
    simp only [ServerSessionEndpoint.call, sessionResolve, sessionPersist,
      hcv, hload, Session.new]
  · intro config jar new_id id hcv hload
    simp only [ServerSessionEndpoint.call, sessionResolve, sessionPersist,
      hcv, hload, Session.default]
  · intro config jar new_id hcv
    simp only [ServerSessionEndpoint.call, sessionResolve, sessionPersist,
      hcv, Session.default]
    rfl

/-- Witness for C4: resolution on the demo storage for a hit, a miss and
an absent candidate. -/
theorem session_resolution_witness :
    sessionResolve demoStorage (some "sid-hit") =
      (Except.ok (some "sid-hit", Session.new [("user", "42")]),
        [.load_session "sid-hit"])
    ∧
    sessionResolve demoStorage (some "stale") =
      (Except.ok (none, Session.default), [.load_session "stale"])
    ∧
    sessionResolve demoStorage none =
      (Except.ok (none, Session.default), []) :=
  ⟨(session_resolution demoStorage).1 "sid-hit" [("user", "42")]
      (by simp [demoStorage]),
    (session_resolution demoStorage).2.1 "stale" (by simp [demoStorage]),
    (session_resolution demoStorage).2.2.1⟩

/-- Claim C5: a request with no session cookie whose handler leaves the
status Unchanged performs no storage call and no cookie write at all (its
effect list is empty and its response is the handler's); more generally
the Unchanged branch of the post-handler persistence step performs no
store or cookie interaction whatever identifier was resolved. -/
theorem unchanged_no_effects {R : Type} (config : CookieConfig)
    (storage : SessionStorage)
    (handler : Session → Session × Except String R)
    (jar : List (String × String)) (new_id : String) :
    (∀ s' resp, s'.status = .unchanged →
      config.get_cookie_value jar = none →
      handler Session.default = (s', Except.ok resp) →
      ServerSessionEndpoint.call config storage handler jar new_id =
        (Except.ok resp, []))
    ∧
    (∀ ttl session_id session, session.status = .unchanged →
      sessionPersist storage ttl session_id session new_id =
        (Except.ok (), [])) := by
  constructor
  · intro s' resp hst hcv hh
    simp only [ServerSessionEndpoint.call, sessionResolve, sessionPersist,
      hcv, hh, hst]
    rfl
  · intro ttl session_id session hst
    simp only [sessionPersist, hst]

/-- Witness for C5: a cookie-less request with a handler that only reads
the session produces an empty effect list. -/
theorem unchanged_no_effects_witness :
    ServerSessionEndpoint.call demoConfig demoStorage
        (fun s => (s, Except.ok s.entries.length)) [] "fresh" =
      (Except.ok 0, [])
    ∧
    sessionPersist demoStorage 3600 (some "sid-hit") Session.default "fresh" =
      (Except.ok (), []) :=
  ⟨(unchanged_no_effects demoConfig demoStorage _ _ "fresh").1
      Session.default 0 rfl rfl rfl,
    (unchanged_no_effects demoConfig demoStorage
        (fun s => (s, Except.ok s.entries.length)) [] "fresh").2
      3600 (some "sid-hit") Session.default rfl⟩

/-- Claim C6: a `load_session` error during resolution is returned as the
request's result without invoking the downstream handler (the result is
the same for every handler and the only effect is the failed load); an
`update_session`/`remove_session` error during the post-handler
persistence step discards the handler's successful response and returns
the storage error instead; the exact effect lists show each failed
storage call is made once and never retried. -/
theorem storage_error_propagation {R : Type} (config : CookieConfig)
    (storage : SessionStorage) (jar : List (String × String))
    (new_id : String) :
    (∀ id e, config.get_cookie_value jar = some id →
      storage.load_session id = Except.error e →
      ∀ handler : Session → Session × Except String R,
        ServerSessionEndpoint.call config storage handler jar new_id =
          (Except.error e, [.load_session id]))
    ∧
    (∀ (handler : Session → Session × Except String R) session_id s0 rev
        s' resp e pev,
      sessionResolve storage (config.get_cookie_value jar) =
        (Except.ok (session_id, s0), rev) →
      handler s0 = (s', Except.ok resp) →
      sessionPersist storage config.ttl session_id s' new_id =
        (Except.error e, pev) →
      ServerSessionEndpoint.call config storage handler jar new_id =
        (Except.error e, rev ++ pev)) := by
  constructor
  · intro id e hcv hload handler
    simp only [ServerSessionEndpoint.call, sessionResolve, hcv, hload]
  · intro handler session_id s0 rev s' resp e pev hres hh hper
    simp only [ServerSessionEndpoint.call, hres, hh, hper]

/-- Witness for C6: a storage whose update fails turns a Changed request
into an error response carrying the storage error. -/
theorem storage_error_propagation_witness :
    ServerSessionEndpoint.call demoConfig
        ⟨fun _ => Except.error "load boom",
          fun _ _ _ => Except.ok (), fun _ => Except.ok ()⟩
        (fun s => (s, Except.ok (0 : Nat)))
        [("poem-session", "sid-hit")] "fresh" =
      (Except.error "load boom", [.load_session "sid-hit"])
    ∧
    ServerSessionEndpoint.call demoConfig
        ⟨fun _ => Except.ok none,
          fun _ _ _ => Except.error "update boom", fun _ => Except.ok ()⟩
        (fun s => (⟨s.entries, .changed⟩, Except.ok (0 : Nat)))
        [] "fresh" =
      (Except.error "update boom",
        [.gen_id "fresh", .set_cookie "fresh", .update_session "fresh" [] 3600]) :=
  ⟨(storage_error_propagation demoConfig
      ⟨fun _ => Except.error "load boom",
        fun _ _ _ => Except.ok (), fun _ => Except.ok ()⟩
      [("poem-session", "sid-hit")] "fresh").1
      "sid-hit" "load boom" rfl rfl (fun s => (s, Except.ok 0)),
    (storage_error_propagation demoConfig
      ⟨fun _ => Except.ok none,
        fun _ _ _ => Except.error "update boom", fun _ => Except.ok ()⟩
      [] "fresh").2
      (fun s => (⟨s.entries, .changed⟩, Except.ok 0))
      none Session.default [] ⟨[], .changed⟩ 0 "update boom"
      [.gen_id "fresh", .set_cookie "fresh", .update_session "fresh" [] 3600]
      rfl rfl rfl⟩

/-- Claim C7: when the downstream handler fails, the middleware returns
the handler's error unchanged and runs no persistence step: the effect
list is exactly the resolution's, with no storage call or cookie
operation added — whatever status the handler left on the session. -/
theorem handler_error_no_persistence {R : Type} (config : CookieConfig)
    (storage : SessionStorage) (jar : List (String × String))
    (new_id : String) :
    ∀ (handler : Session → Session × Except String R) session_id s0 rev s' e,
      sessionResolve storage (config.get_cookie_value jar) =
        (Except.ok (session_id, s0), rev) →
      handler s0 = (s', Except.error e) →
      ServerSessionEndpoint.call config storage handler jar new_id =
        (Except.error e, rev) := by
  intro handler session_id s0 rev s' e hres hh
  simp only [ServerSessionEndpoint.call, hres, hh]

theorem getD_mem_of_lt {α : Type} (d : α) :
    ∀ (l : List α) (n : Nat), n < l.length → l.getD n d ∈ l := by
  intro l
  induction l with
  | nil => intro n h; simp at h
  | cons a t ih =>
    intro n h
    cases n with
    | zero => simp [List.getD]
    | succ m =>
      have : m < t.length := by simpa using h
      simpa [List.getD] using Or.inr (ih m this)

theorem b64Char_mem (n : Nat) : b64Char n ∈ url_safe_alphabet := by
  have hlen : url_safe_alphabet.length = 64 := rfl
  exact getD_mem_of_lt 'A' url_safe_alphabet (n % 64)
    (by rw [hlen]; exact Nat.mod_lt _ (by norm_num))

theorem encodeGroups_length (l : List Nat) :
    (encodeGroups l).length = (4 * l.length + 2) / 3 := by
  induction l using encodeGroups.induct with
  | case1 => simp [encodeGroups]
  | case2 b1 => simp [encodeGroups]
  | case3 b1 b2 => simp [encodeGroups]
  | case4 b1 b2 b3 rest ih =>
    simp only [encodeGroups, List.length_cons, ih]
    omega

theorem encodeGroups_mem (l : List Nat) :
    ∀ c ∈ encodeGroups l, c ∈ url_safe_alphabet := by
  induction l using encodeGroups.induct with
  | case1 => intro c hc; simp [encodeGroups] at hc
  | case2 b1 =>
    intro c hc
    rcases (by simpa [encodeGroups] using hc : _) with h | h <;>
      (subst h; exact b64Char_mem _)
  | case3 b1 b2 =>
    intro c hc
    rcases (by simpa [encodeGroups] using hc : _) with h | h | h <;>
      (subst h; exact b64Char_mem _)
  | case4 b1 b2 b3 rest ih =>
    intro c hc
    rcases (by simpa [encodeGroups] using hc : _) with h | h | h | h | h
    · subst h; exact b64Char_mem _
    · subst h; exact b64Char_mem _
    · subst h; exact b64Char_mem _
    · subst h; exact b64Char_mem _
    · exact ih c h

/-- Claim C8: an identifier produced by `generate_session_id` from its 32
random bytes is a 43-character string whose characters all come from the
URL-safe base64 alphabet `A-Z a-z 0-9 - _`, with no `=` padding
character. -/
theorem generate_session_id_format (random_bytes : List Nat)
    (h : random_bytes.length = 32) :
    (generate_session_id random_bytes).length = 43 ∧
    (∀ c ∈ (generate_session_id random_bytes).toList, c ∈ url_safe_alphabet) ∧
    '=' ∉ (generate_session_id random_bytes).toList := by
  refine ⟨?_, ?_, ?_⟩
  · show (encodeGroups random_bytes).length = 43
    rw [encodeGroups_length, h]
  · exact encodeGroups_mem random_bytes
  · intro hc
    have := encodeGroups_mem random_bytes '=' hc
    simp [url_safe_alphabet] at this

/-- Witness for C8: the all-zero 32-byte draw yields a 43-character
identifier. -/
theorem generate_session_id_format_witness :
    (List.replicate 32 0).length = 32 ∧
    (generate_session_id (List.replicate 32 0)).length = 43 :=
  ⟨by simp, (generate_session_id_format (List.replicate 32 0) (by simp)).1⟩

theorem natToHex_length : ∀ (k n : Nat), (natToHex k n).length = k := by
  intro k
  induction k with
  | zero => intro n; rfl
  | succ m ih => intro n; simp [natToHex, ih]

theorem natToHex_split (k : Nat) :
    ∀ (j n : Nat), natToHex (j + k) n = natToHex j (n / 16 ^ k) ++ natToHex k n := by
  induction k with
  | zero => intro j n; simp [natToHex]
  | succ m ih =>
    intro j n
    show natToHex (j + m + 1) n = _
    rw [natToHex, ih j (n / 16), natToHex, List.append_assoc,
      Nat.div_div_eq_div_mul, ← pow_succ']

theorem hexVal_hexDigitChar (n : Nat) : hexVal (hexDigitChar n) = some (n % 16) := by
  have h : ∀ m, m < 16 → hexVal (hexDigitChar m) = some m := by decide
  have hm : hexDigitChar n = hexDigitChar (n % 16) := by
    unfold hexDigitChar
    congr 1
    omega
  rw [hm, h (n % 16) (Nat.mod_lt _ (by norm_num))]

theorem parseHexAux_append (k : Nat) :
    ∀ (n acc : Nat) (rest : List Char),
      parseHexAux acc (natToHex k n ++ rest) =
        parseHexAux (acc * 16 ^ k + n % 16 ^ k) rest := by
  induction k with
  | zero => intro n acc rest; simp [natToHex, parseHexAux, Nat.mod_one]
  | succ m ih =>
    intro n acc rest
    have hmm : n % 16 % 16 = n % 16 := by omega
    have hm : n % 16 ^ (m + 1) = n % 16 + 16 * (n / 16 % 16 ^ m) := by
      rw [pow_succ, mul_comm (16 ^ m) 16, Nat.mod_mul]
    rw [natToHex, List.append_assoc, ih, List.singleton_append, parseHexAux,
      hexVal_hexDigitChar, hmm, hm, pow_succ]
    ring_nf

theorem div_mod_glue (u a : Nat) :
    u / 16 ^ (a + 4) * 16 ^ 4 + u / 16 ^ a % 16 ^ 4 = u / 16 ^ a := by
  rw [pow_add, ← Nat.div_div_eq_div_mul, Nat.div_add_mod']

theorem natToHex32_decomp (u : Nat) :
    natToHex 32 u =
      natToHex 8 (u / 16 ^ 24) ++ (natToHex 4 (u / 16 ^ 20) ++
        (natToHex 4 (u / 16 ^ 16) ++ (natToHex 4 (u / 16 ^ 12) ++
          natToHex 12 u))) := by
  have h1 : natToHex 32 u = natToHex 8 (u / 16 ^ 24) ++ natToHex 24 u := by
    have := natToHex_split 24 8 u
    norm_num at this ⊢
    exact this
  have h2 : natToHex 24 u = natToHex 4 (u / 16 ^ 20) ++ natToHex 20 u := by
    have := natToHex_split 20 4 u
    norm_num at this ⊢
    exact this
  have h3 : natToHex 20 u = natToHex 4 (u / 16 ^ 16) ++ natToHex 16 u := by
    have := natToHex_split 16 4 u
    norm_num at this ⊢
    exact this
  have h4 : natToHex 16 u = natToHex 4 (u / 16 ^ 12) ++ natToHex 12 u := by
    have := natToHex_split 12 4 u
    norm_num at this ⊢
    exact this
  rw [h1, h2, h3, h4]

theorem take_append_of_length {α : Type} :
    ∀ (X rest : List α) (n : Nat), X.length = n → (X ++ rest).take n = X := by
  intro X
  induction X with
  | nil => intro rest n h; subst h; rfl
  | cons a t ih =>
    intro rest n h
    subst h
    rw [List.cons_append, List.length_cons, List.take_succ_cons,
      ih rest t.length rfl]

theorem drop_append_of_length {α : Type} :
    ∀ (X rest : List α) (n : Nat), X.length = n → (X ++ rest).drop n = rest := by
  intro X
  induction X with
  | nil => intro rest n h; subst h; rfl
  | cons a t ih =>
    intro rest n h
    subst h
    rw [List.cons_append, List.length_cons, List.drop_succ_cons,
      ih rest t.length rfl]

theorem getD_append_of_length {α : Type} (d : α) :
    ∀ (X rest : List α) (n : Nat), X.length = n →
      (X ++ rest).getD n d = rest.getD 0 d := by
  intro X
  induction X with
  | nil => intro rest n h; subst h; rfl
  | cons a t ih =>
    intro rest n h
    subst h
    simpa [List.getD] using ih rest t.length rfl

theorem parseHexAux_natToHex (k n acc : Nat) :
    parseHexAux acc (natToHex k n) = some (acc * 16 ^ k + n % 16 ^ k) := by
  have h := parseHexAux_append k n acc []
  rw [List.append_nil] at h
  rw [h]
  rfl

theorem uuidToString_decomp (u : Nat) :
    uuidToString u =
      ⟨natToHex 8 (u / 16 ^ 24) ++ '-' :: (natToHex 4 (u / 16 ^ 20) ++ '-' ::
        (natToHex 4 (u / 16 ^ 16) ++ '-' :: (natToHex 4 (u / 16 ^ 12) ++ '-' ::
          natToHex 12 u)))⟩ := by
  set A := natToHex 8 (u / 16 ^ 24) with hA
  set B := natToHex 4 (u / 16 ^ 20) with hB
  set C := natToHex 4 (u / 16 ^ 16) with hC
  set D := natToHex 4 (u / 16 ^ 12) with hD
  set E := natToHex 12 u with hE
  have hlA : A.length = 8 := by rw [hA]; exact natToHex_length 8 _
  have hlB : B.length = 4 := by rw [hB]; exact natToHex_length 4 _
  have hlC : C.length = 4 := by rw [hC]; exact natToHex_length 4 _
  have hlD : D.length = 4 := by rw [hD]; exact natToHex_length 4 _
  have hd : natToHex 32 u = A ++ (B ++ (C ++ (D ++ E))) := natToHex32_decomp u
  have h1 : (A ++ (B ++ (C ++ (D ++ E)))).take 8 = A :=
    take_append_of_length _ _ 8 hlA
  have h2 : (A ++ (B ++ (C ++ (D ++ E)))).drop 8 = B ++ (C ++ (D ++ E)) :=
    drop_append_of_length _ _ 8 hlA
  have h3 : (A ++ (B ++ (C ++ (D ++ E)))).drop 12 = C ++ (D ++ E) := by
    have ha : A ++ (B ++ (C ++ (D ++ E))) = (A ++ B) ++ (C ++ (D ++ E)) := by
      simp [List.append_assoc]
    rw [ha]
    exact drop_append_of_length _ _ 12 (by simp [hlA, hlB])
  have h4 : (A ++ (B ++ (C ++ (D ++ E)))).drop 16 = D ++ E := by
    have ha : A ++ (B ++ (C ++ (D ++ E))) = ((A ++ B) ++ C) ++ (D ++ E) := by
      simp [List.append_assoc]
    rw [ha]
    exact drop_append_of_length _ _ 16 (by simp [hlA, hlB, hlC])
  have h5 : (A ++ (B ++ (C ++ (D ++ E)))).drop 20 = E := by
    have ha : A ++ (B ++ (C ++ (D ++ E))) = (((A ++ B) ++ C) ++ D) ++ E := by
      simp [List.append_assoc]
    rw [ha]
    exact drop_append_of_length _ _ 20 (by simp [hlA, hlB, hlC, hlD])
  show (⟨(natToHex 32 u).take 8 ++ '-' :: (((natToHex 32 u).drop 8).take 4 ++
      '-' :: (((natToHex 32 u).drop 12).take 4 ++ '-' ::
        (((natToHex 32 u).drop 16).take 4 ++ '-' :: (natToHex 32 u).drop 20)))⟩ :
      String) = _
  rw [hd, h1, h2, h3, h4, h5, take_append_of_length _ _ 4 hlB,
    take_append_of_length _ _ 4 hlC, take_append_of_length _ _ 4 hlD]

theorem uuidParse_hyphenated (A B C D E : List Char)
    (hlA : A.length = 8) (hlB : B.length = 4) (hlC : C.length = 4)
    (hlD : D.length = 4) (hlE : E.length = 12) :
    uuidParse ⟨A ++ '-' :: (B ++ '-' :: (C ++ '-' :: (D ++ '-' :: E)))⟩ =
      parseHexAux 0 (A ++ (B ++ (C ++ (D ++ E)))) := by
  have htl : ((⟨A ++ '-' :: (B ++ '-' :: (C ++ '-' :: (D ++ '-' :: E)))⟩ :
      String)).toList = A ++ '-' :: (B ++ '-' :: (C ++ '-' :: (D ++ '-' :: E))) :=
    rfl
  have hlen : (A ++ '-' :: (B ++ '-' :: (C ++ '-' :: (D ++ '-' :: E)))).length
      = 36 := by
    simp [hlA, hlB, hlC, hlD, hlE]
  have hg8 : (A ++ '-' :: (B ++ '-' :: (C ++ '-' :: (D ++ '-' :: E)))).getD
      8 'x' = '-' := by
    rw [getD_append_of_length 'x' _ _ 8 hlA]
    rfl
  have e13 : A ++ '-' :: (B ++ '-' :: (C ++ '-' :: (D ++ '-' :: E))) =
      (A ++ '-' :: B) ++ '-' :: (C ++ '-' :: (D ++ '-' :: E)) := by
    simp [List.append_assoc]
  have hg13 : (A ++ '-' :: (B ++ '-' :: (C ++ '-' :: (D ++ '-' :: E)))).getD
      13 'x' = '-' := by
    rw [e13, getD_append_of_length 'x' _ _ 13 (by simp [hlA, hlB])]
    rfl
  have e18 : A ++ '-' :: (B ++ '-' :: (C ++ '-' :: (D ++ '-' :: E))) =
      ((A ++ '-' :: B) ++ '-' :: C) ++ '-' :: (D ++ '-' :: E) := by
    simp [List.append_assoc]
  have hg18 : (A ++ '-' :: (B ++ '-' :: (C ++ '-' :: (D ++ '-' :: E)))).getD
      18 'x' = '-' := by
    rw [e18, getD_append_of_length 'x' _ _ 18 (by simp [hlA, hlB, hlC])]
    rfl
  have e23 : A ++ '-' :: (B ++ '-' :: (C ++ '-' :: (D ++ '-' :: E))) =
      (((A ++ '-' :: B) ++ '-' :: C) ++ '-' :: D) ++ '-' :: E := by
    simp [List.append_assoc]
  have hg23 : (A ++ '-' :: (B ++ '-' :: (C ++ '-' :: (D ++ '-' :: E)))).getD
      23 'x' = '-' := by
    rw [e23, getD_append_of_length 'x' _ _ 23 (by simp [hlA, hlB, hlC, hlD])]
    rfl
  have ht8 : (A ++ '-' :: (B ++ '-' :: (C ++ '-' :: (D ++ '-' :: E)))).take 8
      = A := take_append_of_length _ _ 8 hlA
  have e9 : A ++ '-' :: (B ++ '-' :: (C ++ '-' :: (D ++ '-' :: E))) =
      (A ++ ['-']) ++ (B ++ '-' :: (C ++ '-' :: (D ++ '-' :: E))) := by
    simp [List.append_assoc]
  have hd9 : (A ++ '-' :: (B ++ '-' :: (C ++ '-' :: (D ++ '-' :: E)))).drop 9
      = B ++ '-' :: (C ++ '-' :: (D ++ '-' :: E)) := by
    rw [e9]
    exact drop_append_of_length _ _ 9 (by simp [hlA])
  have ht9 : ((A ++ '-' :: (B ++ '-' :: (C ++ '-' :: (D ++ '-' :: E)))).drop
      9).take 4 = B := by
    rw [hd9]
    exact take_append_of_length _ _ 4 hlB
  have e14 : A ++ '-' :: (B ++ '-' :: (C ++ '-' :: (D ++ '-' :: E))) =
      ((A ++ '-' :: B) ++ ['-']) ++ (C ++ '-' :: (D ++ '-' :: E)) := by
    simp [List.append_assoc]
  have hd14 : (A ++ '-' :: (B ++ '-' :: (C ++ '-' :: (D ++ '-' :: E)))).drop 14
      = C ++ '-' :: (D ++ '-' :: E) := by
    rw [e14]
    exact drop_append_of_length _ _ 14 (by simp [hlA, hlB])
  have ht14 : ((A ++ '-' :: (B ++ '-' :: (C ++ '-' :: (D ++ '-' :: E)))).drop
      14).take 4 = C := by
    rw [hd14]
    exact take_append_of_length _ _ 4 hlC
  have e19 : A ++ '-' :: (B ++ '-' :: (C ++ '-' :: (D ++ '-' :: E))) =
      (((A ++ '-' :: B) ++ '-' :: C) ++ ['-']) ++ (D ++ '-' :: E) := by
    simp [List.append_assoc]
  have hd19 : (A ++ '-' :: (B ++ '-' :: (C ++ '-' :: (D ++ '-' :: E)))).drop 19
      = D ++ '-' :: E := by
    rw [e19]
    exact drop_append_of_length _ _ 19 (by simp [hlA, hlB, hlC])
  have ht19 : ((A ++ '-' :: (B ++ '-' :: (C ++ '-' :: (D ++ '-' :: E)))).drop
      19).take 4 = D := by
    rw [hd19]
    exact take_append_of_length _ _ 4 hlD
  have e24 : A ++ '-' :: (B ++ '-' :: (C ++ '-' :: (D ++ '-' :: E))) =
      ((((A ++ '-' :: B) ++ '-' :: C) ++ '-' :: D) ++ ['-']) ++ E := by
    simp [List.append_assoc]
  have hd24 : (A ++ '-' :: (B ++ '-' :: (C ++ '-' :: (D ++ '-' :: E)))).drop 24
      = E := by
    rw [e24]
    exact drop_append_of_length _ _ 24 (by simp [hlA, hlB, hlC, hlD])
  unfold uuidParse
  rw [htl]
  simp only [hlen, hg8, hg13, hg18, hg23, ht8, ht9, ht14, ht19, hd24]
  norm_num

theorem uuid_roundtrip (u : Nat) (hu : u < 2 ^ 128) :
    uuidParse (uuidToString u) = some u := by
  have hu16 : u < 16 ^ 32 := by
    have h : (16 : Nat) ^ 32 = 2 ^ 128 := by norm_num
    rw [h]
    exact hu
  rw [uuidToString_decomp u,
    uuidParse_hyphenated _ _ _ _ _ (natToHex_length 8 _) (natToHex_length 4 _)
      (natToHex_length 4 _) (natToHex_length 4 _) (natToHex_length 12 _),
    parseHexAux_append, parseHexAux_append, parseHexAux_append,
    parseHexAux_append, parseHexAux_natToHex]
  have g24 : u / 16 ^ 24 % 16 ^ 8 = u / 16 ^ 24 :=
    Nat.mod_eq_of_lt (Nat.div_lt_of_lt_mul (by rw [← pow_add]; norm_num; exact hu16))
  have s1 : u / 16 ^ 24 * 16 ^ 4 + u / 16 ^ 20 % 16 ^ 4 = u / 16 ^ 20 := by
    have h := div_mod_glue u 20
    norm_num at h
    exact h
  have s2 : u / 16 ^ 20 * 16 ^ 4 + u / 16 ^ 16 % 16 ^ 4 = u / 16 ^ 16 := by
    have h := div_mod_glue u 16
    norm_num at h
    exact h
  have s3 : u / 16 ^ 16 * 16 ^ 4 + u / 16 ^ 12 % 16 ^ 4 = u / 16 ^ 12 := by
    have h := div_mod_glue u 12
    norm_num at h
    exact h
  have s4 : u / 16 ^ 12 * 16 ^ 12 + u % 16 ^ 12 = u := Nat.div_add_mod' u _
  rw [g24, Nat.zero_mul, Nat.zero_add, s1, s2, s3, s4]

/-- Claim C9: the OpenAPI `Uuid` JSON round-trip is the identity: for any
128-bit value, `parse_from_json (to_json u)` yields `Ok u` — `to_json`
emits the lowercase hyphenated display string and `parse_from_json`
accepts it back into the same value. -/
theorem uuid_json_roundtrip (u : Nat) (hu : u < 2 ^ 128) :
    Uuid.parse_from_json (Uuid.to_json u) = Except.ok u := by
  unfold Uuid.to_json Uuid.parse_from_json
  simp only [Option.getD_some]
  rw [uuid_roundtrip u hu]

/-- Witness for C9: the round-trip at the concrete value
`0x0123456789abcdef`. -/
theorem uuid_json_roundtrip_witness :
    (81985529216486895 : Nat) < 2 ^ 128 ∧
    Uuid.parse_from_json (Uuid.to_json 81985529216486895) =
      Except.ok 81985529216486895 :=
  ⟨by norm_num, uuid_json_roundtrip 81985529216486895 (by norm_num)⟩

theorem leadsWith_self_append (pat Y : List Char) :
    leadsWith pat (pat ++ Y) = true := by
  induction pat with
  | nil => rfl
  | cons p ps ih => simp [leadsWith, ih]

theorem containsSub_of_leadsWith :
    ∀ (l pat : List Char), leadsWith pat l = true → containsSub l pat = true := by
  intro l pat h
  cases l with
  | nil =>
    cases pat with
    | nil => rfl
    | cons p ps => simp [leadsWith] at h
  | cons c rest => simp [containsSub, h]

theorem leadsWith_take :
    ∀ (pat l : List Char) (n : Nat), leadsWith pat l = true →
      pat.length ≤ n → leadsWith pat (l.take n) = true := by
  intro pat
  induction pat with
  | nil => intro l n _ _; rfl
  | cons p ps ih =>
    intro l n h hn
    cases l with
    | nil => simp [leadsWith] at h
    | cons c cs =>
      cases n with
      | zero => simp at hn
      | succ m =>
        simp only [leadsWith, Bool.and_eq_true, beq_iff_eq] at h
        simp only [List.take_succ_cons, leadsWith, Bool.and_eq_true, beq_iff_eq]
        exact ⟨h.1, ih cs m h.2 (by simpa using hn)⟩

theorem take_append_le {α : Type} :
    ∀ (Z Y : List α) (n : Nat), n ≤ Z.length → (Z ++ Y).take n = Z.take n := by
  intro Z
  induction Z with
  | nil => intro Y n h; simp at h; simp [h]
  | cons a t ih =>
    intro Y n h
    cases n with
    | zero => rfl
    | succ m =>
      simp only [List.cons_append, List.take_succ_cons]
      rw [ih Y m (by simpa using h)]

theorem replaceAux_not_contains (pat rep : List Char) :
    ∀ s : List Char, containsSub s pat = false → replaceAux pat rep s = s := by
  intro s
  induction s with
  | nil => intro _; rw [replaceAux]
  | cons c rest ih =>
    intro h
    simp only [containsSub, Bool.or_eq_false_iff] at h
    rw [replaceAux, dif_neg (by simp [h.1]), ih h.2]

theorem leadsWith_into_dropLast (pat X Y : List Char)
    (hX : X ≠ []) (hlead : leadsWith pat ((X ++ pat) ++ Y) = true) :
    leadsWith pat (List.dropLast (X ++ pat)) = true := by
  have hlen : pat.length ≤ (X ++ pat).length - 1 := by
    cases X with
    | nil => exact absurd rfl hX
    | cons a t => simp
  have h1 := leadsWith_take pat ((X ++ pat) ++ Y) ((X ++ pat).length - 1)
    hlead hlen
  rw [take_append_le _ _ _ (by omega)] at h1
  rw [List.dropLast_eq_take]
  exact h1

theorem replaceAux_step (pat rep : List Char) (hpat : pat ≠ []) :
    ∀ (X Y : List Char),
      containsSub (List.dropLast (X ++ pat)) pat = false →
      replaceAux pat rep (X ++ (pat ++ Y)) =
        X ++ (rep ++ replaceAux pat rep Y) := by
  intro X
  induction X with
  | nil =>
    intro Y _
    cases pat with
    | nil => exact absurd rfl hpat
    | cons p ps =>
      rw [List.nil_append, List.cons_append, replaceAux,
        dif_pos ⟨hpat, by simpa using leadsWith_self_append (p :: ps) Y⟩]
      rw [← List.cons_append, drop_append_of_length _ _ _ rfl, List.nil_append]
  | cons c X' ih =>
    intro Y hnc
    have hnotlead : leadsWith pat (c :: (X' ++ (pat ++ Y))) = false := by
      by_contra hb
      have hb' : leadsWith pat (((c :: X') ++ pat) ++ Y) = true := by
        simp only [Bool.not_eq_false] at hb
        simpa [List.append_assoc] using hb
      have hcd := leadsWith_into_dropLast pat (c :: X') Y (by simp) hb'
      have hct := containsSub_of_leadsWith _ _ hcd
      rw [hct] at hnc
      simp at hnc
    have hnc' : containsSub (List.dropLast (X' ++ pat)) pat = false := by
      have hne : X' ++ pat ≠ [] := by
        cases pat with
        | nil => exact absurd rfl hpat
        | cons p ps => simp
      have hdl : List.dropLast (c :: (X' ++ pat)) =
          c :: List.dropLast (X' ++ pat) := by
        cases hx : X' ++ pat with
        | nil => exact absurd hx hne
        | cons a t => rw [List.dropLast_cons₂]
      rw [List.cons_append, hdl] at hnc
      simp only [containsSub, Bool.or_eq_false_iff] at hnc
      exact hnc.2
    rw [List.cons_append, replaceAux, dif_neg (by simp [hnotlead]), ih Y hnc',
      List.cons_append]

/-- Claim C10: `create_html` yields the template with every leftmost
non-overlapping occurrence of the placeholder (apostrophes included)
replaced by the document: a template with no occurrence is returned
unchanged, and a template splitting as `X ++ placeholder ++ Y` with no
occurrence before the split point starts the result with `X` unaltered,
followed verbatim by the document, the remainder `Y` being processed the
same way. -/
theorem create_html_replaces (document : String) :
    (∀ template : String,
      containsSub template.toList specPlaceholder.toList = false →
      create_html template document = template)
    ∧
    (∀ X Y : List Char,
      containsSub (List.dropLast (X ++ specPlaceholder.toList))
        specPlaceholder.toList = false →
      create_html ⟨X ++ (specPlaceholder.toList ++ Y)⟩ document =
        ⟨X ++ (document.toList ++
          (create_html ⟨Y⟩ document).toList)⟩) := by
  constructor
  · intro template h
    show (⟨replaceAux specPlaceholder.toList document.toList
      template.toList⟩ : String) = template
    rw [replaceAux_not_contains _ _ _ h]
    rfl
  · intro X Y h
    show (⟨replaceAux specPlaceholder.toList document.toList
        (X ++ (specPlaceholder.toList ++ Y))⟩ : String) = _
    rw [replaceAux_step specPlaceholder.toList document.toList
      (by simp [specPlaceholder]) X Y h]
    rfl

/-- Witness for C10: one placeholder between two literal fragments is
replaced by the document, and a template without the placeholder is
untouched. -/
theorem create_html_replaces_witness :
    create_html ⟨"<body>".toList ++ (specPlaceholder.toList ++
        "</body>".toList)⟩ "SPEC" =
      ⟨"<body>".toList ++ ("SPEC".toList ++
        (create_html ⟨"</body>".toList⟩ "SPEC").toList)⟩
    ∧
    create_html "<p>no placeholder</p>" "SPEC" = "<p>no placeholder</p>" :=
  ⟨(create_html_replaces "SPEC").2 "<body>".toList "</body>".toList
      (by decide),
    (create_html_replaces "SPEC").1 "<p>no placeholder</p>" (by decide)⟩

/-- Witness for C7: a failing handler that had already purged the session
propagates its error with no persistence effect. -/
theorem handler_error_no_persistence_witness :
    ServerSessionEndpoint.call demoConfig demoStorage
        (fun s => (⟨s.entries, .purged⟩,
          (Except.error "handler boom" : Except String Nat)))
        [("poem-session", "sid-hit")] "fresh" =
      (Except.error "handler boom", [.load_session "sid-hit"]) :=
  handler_error_no_persistence demoConfig demoStorage
    [("poem-session", "sid-hit")] "fresh"
    (fun s => (⟨s.entries, .purged⟩, Except.error "handler boom"))
    (some "sid-hit") (Session.new [("user", "42")]) [.load_session "sid-hit"]
    ⟨[("user", "42")], .purged⟩ "handler boom" rfl rfl

end Poem
